import Mathlib

/-!
Verification of the Shield pause utility (`backup/AndroidRemote/pause.py`).

The development shallowly embeds the program: strings are modelled as `List Char`,
the `.env` key-value store and the two identity files as explicit state records,
and the blocking collaborators (PIN prompt, pairing protocol, connection, key
send) as explicit finite input traces and boolean outcomes supplied in an
environment record.  Character-level helpers model the ASCII fragment of the
Python string operations the program uses; Unicode-only behaviour (for example
`str.upper` on non-ASCII letters) is outside every property considered here.
-/

namespace ShieldPause

/-! ## Character helpers (ASCII models of the Python string operations) -/

/-- ASCII decimal digit, the model of the regex class `\d` and of the characters
`int` consumes.  Python also accepts other Unicode decimal digits; no property
here exercises those. -/
def isDigitCh (c : Char) : Bool := 48 ≤ c.toNat && c.toNat ≤ 57

/-- ASCII whitespace as stripped by Python `str.strip()` and by `int()`
(space, tab, carriage return, line feed, vertical tab, form feed). -/
def isWsCh (c : Char) : Bool :=
  c.toNat = 32 || c.toNat = 9 || c.toNat = 13 || c.toNat = 10 ||
    c.toNat = 11 || c.toNat = 12

/-- ASCII model of Python `str.upper` applied characterwise. -/
def pyUpperCh (c : Char) : Char :=
  if 97 ≤ c.toNat && c.toNat ≤ 122 then Char.ofNat (c.toNat - 32) else c

/-- ASCII model of Python `str.lower` applied characterwise. -/
def pyLowerCh (c : Char) : Char :=
  if 65 ≤ c.toNat && c.toNat ≤ 90 then Char.ofNat (c.toNat + 32) else c

/-- Drop leading whitespace. -/
def dropLeadingWs (l : List Char) : List Char := l.dropWhile isWsCh

/-- Python `str.strip()`: drop whitespace from both ends. -/
def stripWs (l : List Char) : List Char :=
  (dropLeadingWs (dropLeadingWs l).reverse).reverse

/-- Decimal value of a digit string. -/
def digitsToNat (l : List Char) : Nat :=
  l.foldl (fun n c => n * 10 + (c.toNat - 48)) 0

/-- Python `int(s)` on the strings reachable in `validate_ip`: surrounding
whitespace is stripped (`int` accepts it), then the decimal value is taken.
The regex guard guarantees the stripped string is a non-empty digit string, so
the error cases of `int` are unreachable where this is used. -/
def pyIntVal (g : List Char) : Nat := digitsToNat (stripWs g)

/-! ## `validate_ip` (source lines 60-68)

```python
def validate_ip(ip: str) -> bool:
    pattern = r"^(\d{1,3}\.){3}\d{1,3}$"
    if not re.match(pattern, ip):
        return False
    octets = ip.split(".")
    return all(0 <= int(octet) <= 255 for octet in octets)
```
-/

/-- Helper for `splitOnDot`: first group and remaining groups. -/
def splitDotAux : List Char → List Char × List (List Char)
  | [] => ([], [])
  | c :: rest =>
    let (g, gs) := splitDotAux rest
    if c == '.' then ([], g :: gs) else (c :: g, gs)

/-- Python `ip.split(".")`: split on every dot, keeping empty groups. -/
def splitOnDot (l : List Char) : List (List Char) :=
  (splitDotAux l).1 :: (splitDotAux l).2

/-- One regex group `\d{1,3}`: one to three ASCII digits. -/
def octetGroupOk (g : List Char) : Bool :=
  decide (1 ≤ g.length) && decide (g.length ≤ 3) && g.all isDigitCh

/-- The regex body `(\d{1,3}\.){3}\d{1,3}` matched against the whole input:
exactly four dot-separated groups of one to three digits. -/
def ipCoreMatch (l : List Char) : Bool :=
  match splitOnDot l with
  | [a, b, c, d] => octetGroupOk a && octetGroupOk b && octetGroupOk c && octetGroupOk d
  | _ => false

/-- Whether the last character is a line feed. -/
def lastIsNewline (l : List Char) : Bool := l.getLast? == some '\n'

/-- Python `re.match` with the anchored pattern `^(\d{1,3}\.){3}\d{1,3}$`.
Without `re.MULTILINE`, `$` matches at the end of the string or just before a
single newline at the end of the string, so the pattern also accepts a match
that leaves one trailing newline unconsumed. -/
def ipRegexMatch (l : List Char) : Bool :=
  ipCoreMatch l || (lastIsNewline l && ipCoreMatch l.dropLast)

/-- Model of `validate_ip`, over the character list of the input. -/
def validateIpChars (l : List Char) : Bool :=
  if !ipRegexMatch l then false
  else (splitOnDot l).all (fun octet => pyIntVal octet ≤ 255)

/-- Model of `validate_ip` on a Lean string. -/
def validate_ip (ip : String) : Bool := validateIpChars ip.toList

/-- The IP validator as claim C8 words it: the input consists of exactly four
dot-separated decimal (digit) groups, each parsing as an integer in [0,255]. -/
def claimedIpValid (l : List Char) : Bool :=
  match splitOnDot l with
  | [a, b, c, d] =>
    [a, b, c, d].all (fun g => !g.isEmpty && g.all isDigitCh && digitsToNat g ≤ 255)
  | _ => false

/-- One group of the amended characterization: one to three ASCII digits with
value at most 255. -/
def octetValueOk (g : List Char) : Bool := octetGroupOk g && digitsToNat g ≤ 255

/-- Core of the amended characterization: exactly four dot-separated groups of
one to three digits, each with value at most 255. -/
def amendedIpCore (l : List Char) : Bool :=
  match splitOnDot l with
  | [a, b, c, d] => octetValueOk a && octetValueOk b && octetValueOk c && octetValueOk d
  | _ => false

/-- The amended characterization of `validate_ip`: as claimed, except that a
group has at most three digits and that one trailing newline is tolerated. -/
def amendedIpValid (l : List Char) : Bool :=
  amendedIpCore l || (lastIsNewline l && amendedIpCore l.dropLast)

/-! ## PIN validation and the pairing negotiator (`pair_with_shield`, lines 105-163)

```python
    try:
        await remote.async_start_pairing()
        while True:
            pin = input("...").strip().upper()
            if len(pin) != 6 or not all(c in "0123456789ABCDEF" for c in pin):
                print("Invalid PIN format. ...")
                continue
            try:
                await remote.async_finish_pairing(pin)
                cert_data = base64.b64encode(f"paired_{host}".encode()).decode()
                return cert_data
            except Exception as e:
                error_msg = str(e).lower()
                if "invalid" in error_msg or "wrong" in error_msg:
                    continue
                elif "reject" in error_msg:
                    return None
                else:
                    return None
    except Exception as e:
        return None
```
-/

/-- The hexadecimal alphabet of the PIN check (the string literal of digits 0 to 9 and letters A to F). -/
def hexDigits : List Char := "0123456789ABCDEF".toList

/-- The rejection test of the PIN loop, applied to the normalized input:
`len(pin) != 6 or not all(c in hexdigits for c in pin)`. -/
def pinRejected (pin : List Char) : Bool :=
  !(decide (pin.length = 6)) || !(pin.all (fun c => hexDigits.contains c))

/-- The normalization the loop applies to raw prompt input:
`input(...).strip().upper()`. -/
def normalizePinInput (raw : List Char) : List Char := (stripWs raw).map pyUpperCh

/-- Boolean list-prefix test (characterwise). -/
def listStartsWith : List Char → List Char → Bool
  | [], _ => true
  | _ :: _, [] => false
  | p :: ps, x :: xs => p == x && listStartsWith ps xs

/-- Python `pat in s`: contiguous-substring test. -/
def containsSub (pat : List Char) : List Char → Bool
  | [] => listStartsWith pat []
  | x :: xs => listStartsWith pat (x :: xs) || containsSub pat xs

/-- The three ways the PIN-submission handler classifies a raised error. -/
inductive PairErrClass where
  | invalidPin
  | rejectedOnDevice
  | otherError
deriving DecidableEq, Repr

/-- The classification of the exception text performed at lines 149-159:
lowercase the message, then test the substrings `"invalid"` / `"wrong"`,
then `"reject"`. -/
def classify_pairing_error (msg : List Char) : PairErrClass :=
  let m := msg.map pyLowerCh
  if containsSub "invalid".toList m || containsSub "wrong".toList m then .invalidPin
  else if containsSub "reject".toList m then .rejectedOnDevice
  else .otherError

/-- Outcome of one `async_finish_pairing(pin)` call: success, or an exception
carrying a message. -/
inductive FinishOutcome where
  | success
  | failure (msg : List Char)

/-! ### The credential marker: `base64.b64encode(f"paired_{host}".encode()).decode()` -/

/-- UTF-8 encoding of one character, as a byte list. -/
def utf8EncodeCharM (c : Char) : List Nat :=
  let n := c.toNat
  if n < 128 then [n]
  else if n < 2048 then [192 + n / 64, 128 + n % 64]
  else if n < 65536 then [224 + n / 4096, 128 + (n / 64) % 64, 128 + n % 64]
  else [240 + n / 262144, 128 + (n / 4096) % 64, 128 + (n / 64) % 64, 128 + n % 64]

/-- UTF-8 encoding of a character list (Python `str.encode()`). -/
def utf8Bytes (l : List Char) : List Nat := (l.map utf8EncodeCharM).flatten

/-- The standard base64 alphabet. -/
def b64Alphabet : List Char :=
  "ABCDEFGHIJKLMNOPQRSTUVWXYZabcdefghijklmnopqrstuvwxyz0123456789+/".toList

/-- The base64 digit for a 6-bit value. -/
def b64Char (n : Nat) : Char := b64Alphabet.getD n '?'

/-- Standard base64 with padding over a byte list (Python `base64.b64encode`). -/
def b64EncodeBytes : List Nat → List Char
  | [] => []
  | [a] => [b64Char (a / 4), b64Char (a % 4 * 16), '=', '=']
  | [a, b] => [b64Char (a / 4), b64Char (a % 4 * 16 + b / 16), b64Char (b % 16 * 4), '=']
  | a :: b :: c :: rest =>
    b64Char (a / 4) :: b64Char (a % 4 * 16 + b / 16) ::
      b64Char (b % 16 * 4 + c / 64) :: b64Char (c % 64) :: b64EncodeBytes rest

/-- The credential marker returned on pairing success:
`base64.b64encode(f"paired_{host}".encode()).decode()`. -/
def markerFor (host : List Char) : List Char :=
  b64EncodeBytes (utf8Bytes ("paired_".toList ++ host))

/-- The PIN loop of `pair_with_shield`.  The prompt inputs are a finite trace;
`finish k` is the outcome the pairing protocol gives to the `k`-th submitted
PIN.  Returns the value `pair_with_shield` would return (`some marker` or
`none`) together with the list of PINs actually submitted.  An exhausted input
trace models `input()` raising `EOFError`, which the outer handler turns into
a `None` return with nothing submitted further. -/
def pairLoop (host : List Char) (finish : Nat → FinishOutcome) :
    List (List Char) → Nat → Option (List Char) × List (List Char)
  | [], _ => (none, [])
  | raw :: rest, k =>
    let pin := normalizePinInput raw
    if pinRejected pin then
      pairLoop host finish rest k
    else
      match finish k with
      | .success => (some (markerFor host), [pin])
      | .failure msg =>
        match classify_pairing_error msg with
        | .invalidPin =>
          let (r, subs) := pairLoop host finish rest (k + 1)
          (r, pin :: subs)
        | .rejectedOnDevice => (none, [pin])
        | .otherError => (none, [pin])

/-- Model of `pair_with_shield`: if `async_start_pairing()` raises, the outer handler
returns `None` before any prompt; otherwise the PIN loop runs. -/
def pair_with_shield (host : List Char) (startPairingOk : Bool)
    (finish : Nat → FinishOutcome) (pinInputs : List (List Char)) :
    Option (List Char) × List (List Char) :=
  if startPairingOk then pairLoop host finish pinInputs 0
  else (none, [])

/-! ## The credential store, the identity files and the orchestrator -/

/-- The `.env` key-value store: the values of `SHIELD_HOST` and `SHIELD_CERT`
as `os.getenv` reports them (`none` when the key is absent). -/
structure EnvStore where
  shield_host : Option (List Char)
  shield_cert : Option (List Char)
deriving DecidableEq, Repr

/-- Model of `save_config("SHIELD_CERT", value)`. -/
def setCert (s : EnvStore) (v : List Char) : EnvStore := { s with shield_cert := some v }

/-- Model of `save_config("SHIELD_HOST", value)`. -/
def setHost (s : EnvStore) (v : List Char) : EnvStore := { s with shield_host := some v }

/-- The two on-disk identity files (`.shield_cert.pem`, `.shield_key.pem`):
`none` when the file is absent, otherwise its byte contents. -/
structure FileSys where
  certFile : Option (List Nat)
  keyFile : Option (List Nat)
deriving DecidableEq, Repr

/-- Both identity files are present on disk. -/
def bothIdentityFilesPresent (fs : FileSys) : Bool :=
  fs.certFile.isSome && fs.keyFile.isSome

/-- Modelled from the spec: `async_generate_cert_if_missing()` lives in the
external `androidtvremote2` library, not in this repository; only its call
site (line 216) and the docstrings describing it are in the source.  Spec
section 4.1 step 2: ensure the certificate/key files exist, generating a fresh
self-signed identity only if missing; running it when the files already exist
is a no-op.  `fresh` stands for the identity bytes a generation would
produce. -/
def generate_cert_if_missing (fresh : List Nat × List Nat) (fs : FileSys) : FileSys :=
  if bothIdentityFilesPresent fs then fs
  else { certFile := some fresh.1, keyFile := some fresh.2 }

/-- Python truthiness of an optional string (`not cert_data` is true exactly
when the value is `None` or the empty string). -/
def pyFalsy : Option (List Char) → Bool
  | none => true
  | some s => s.isEmpty

/-- The external collaborators of one run: whether `async_start_pairing`
succeeds, the protocol outcome of each PIN submission, the trace of PIN prompt
inputs, the identity bytes a certificate generation would produce, and whether
`async_connect` succeeds. -/
structure ConnEnv where
  startPairingOk : Bool
  finish : Nat → FinishOutcome
  pinInputs : List (List Char)
  freshIdentity : List Nat × List Nat
  connectOk : Bool

/-- Observable outcome of `connect_and_pair_if_needed`: whether a connected
remote was returned, the store and file system afterwards, whether the
pairing branch ran, which PINs were submitted, and whether `async_connect`
was attempted. -/
structure OrchOut where
  remote : Option Unit
  store : EnvStore
  fs : FileSys
  pairingEntered : Bool
  submittedPins : List (List Char)
  connectAttempted : Bool
deriving DecidableEq, Repr

/-- Model of `connect_and_pair_if_needed(host, cert_data, force_repair)` (lines 166-265).

```python
    needs_pairing = force_repair or not cert_data
    try:
        remote = AndroidTVRemote(...)
        await remote.async_generate_cert_if_missing()
        if needs_pairing:
            cert_data = await pair_with_shield(remote, host)
            if cert_data:
                save_config("SHIELD_CERT", cert_data)
            else:
                print("Pairing failed.")
                return None
        await remote.async_connect()
        return remote
    except ...:   # every handler prints a diagnostic and returns None
        return None
```
-/
def connect_and_pair_if_needed (host : List Char) (cert_data : Option (List Char))
    (force_repair : Bool) (env : ConnEnv) (store : EnvStore) (fs : FileSys) : OrchOut :=
  let needs_pairing := force_repair || pyFalsy cert_data
  let fs1 := generate_cert_if_missing env.freshIdentity fs
  if needs_pairing then
    match pair_with_shield host env.startPairingOk env.finish env.pinInputs with
    | (some marker, subs) =>
      -- `if cert_data:` is Python truthiness, so an empty returned marker
      -- would also take the failure branch (`pair_with_shield` never returns
      -- an empty marker, see `markerFor_ne_nil`).
      if marker.isEmpty then
        { remote := none
          store := store
          fs := fs1
          pairingEntered := true
          submittedPins := subs
          connectAttempted := false }
      else
        { remote := if env.connectOk then some () else none
          store := setCert store marker
          fs := fs1
          pairingEntered := true
          submittedPins := subs
          connectAttempted := true }
    | (none, subs) =>
      { remote := none
        store := store
        fs := fs1
        pairingEntered := true
        submittedPins := subs
        connectAttempted := false }
  else
    { remote := if env.connectOk then some () else none
      store := store
      fs := fs1
      pairingEntered := false
      submittedPins := []
      connectAttempted := true }

/-- Observable outcome of `run_pause_command`: the orchestrator outcome plus
whether the key send was attempted, whether `remote.disconnect()` was called,
and the boolean result of the function. -/
structure RunOut where
  orch : OrchOut
  sendAttempted : Bool
  disconnected : Bool
  success : Bool
deriving DecidableEq, Repr

/-- Model of `send_play_pause` (lines 268-277): sends the key and returns `True`, or
catches the raised error and returns `False`.  `sendOk` is whether
`send_key_command` succeeds. -/
def send_play_pause (sendOk : Bool) : Bool := sendOk

/-- Model of `run_pause_command` (lines 280-293):

```python
    remote = await connect_and_pair_if_needed(host, cert_data, force_repair)
    if not remote:
        return False
    success = await send_play_pause(remote)
    remote.disconnect()
    return success
```
-/
def run_pause_command (host : List Char) (cert_data : Option (List Char))
    (force_repair : Bool) (env : ConnEnv) (sendOk : Bool)
    (store : EnvStore) (fs : FileSys) : RunOut :=
  let o := connect_and_pair_if_needed host cert_data force_repair env store fs
  match o.remote with
  | none => { orch := o, sendAttempted := false, disconnected := false, success := false }
  | some _ =>
    { orch := o
      sendAttempted := true
      disconnected := true
      success := send_play_pause sendOk }

/-- Model of `main_async` (lines 296-301): `0` when `run_pause_command` reports success,
else `1`. -/
def main_async_code (host : List Char) (cert_data : Option (List Char))
    (force_repair : Bool) (env : ConnEnv) (sendOk : Bool)
    (store : EnvStore) (fs : FileSys) : Nat :=
  if (run_pause_command host cert_data force_repair env sendOk store fs).success then 0 else 1

/-! ## `get_host_config` and `main` -/

/-- Outcome of `get_host_config`: `sys.exit(1)` with its diagnostics, the
process dying on an uncaught `EOFError` from an exhausted prompt (a nonzero
exit with no command run), or a host together with the store state after a
possible `SHIELD_HOST` save. -/
inductive HostOutcome where
  | exitInvalid (diag : List (List Char))
  | eofAbort
  | got (host : List Char) (store : EnvStore)
deriving DecidableEq, Repr

/-- The interactive prompt loop of `get_host_config` (lines 95-102): strip the
entry, save and return it if it validates, else re-prompt. -/
def hostPromptLoop (store : EnvStore) : List (List Char) → HostOutcome
  | [] => .eofAbort
  | raw :: rest =>
    let host := stripWs raw
    if validateIpChars host then .got host (setHost store host)
    else hostPromptLoop store rest

/-- The diagnostics printed on an invalid `--host` value (lines 85-86). -/
def invalidHostDiag (h : List Char) : List (List Char) :=
  ["Error: Invalid IP address format: ".toList ++ h,
   "Please enter a valid IP (e.g., 192.168.1.238)".toList]

/-- Model of `get_host_config(config, args)` (lines 80-102).  `argHost` is `args.host`;
the guard is Python truthiness, so an empty `--host` value falls through to
the stored configuration. -/
def get_host_config (argHost : Option (List Char)) (store : EnvStore)
    (promptInputs : List (List Char)) : HostOutcome :=
  match argHost with
  | some h =>
    if h.isEmpty then
      match store.shield_host with
      | some sh => if sh.isEmpty then hostPromptLoop store promptInputs else .got sh store
      | none => hostPromptLoop store promptInputs
    else if validateIpChars h then .got h store
    else .exitInvalid (invalidHostDiag h)
  | none =>
    match store.shield_host with
    | some sh => if sh.isEmpty then hostPromptLoop store promptInputs else .got sh store
    | none => hostPromptLoop store promptInputs

/-- The parsed command line. -/
structure Args where
  argHost : Option (List Char)
  repair : Bool

/-- Observable outcome of the whole process: the exit code, the outcome of
`run_pause_command` when it ran (`none` when the process exited first), and
the diagnostics printed by the `--host` validation path. -/
structure MainOut where
  exitCode : Nat
  ranCommand : Option RunOut
  diag : List (List Char)

/-- Model of `main` (lines 304-315) composed with `sys.exit` (line 319):

```python
    args = parse_args()
    config = load_config()
    host = get_host_config(config, args)
    cert = None if args.repair else config["cert"]
    return asyncio.run(main_async(host, cert, args.repair))
```

`config` is read once before `get_host_config`, so `cert` comes from the
initial store even when the prompt loop saves a host. -/
def mainModel (args : Args) (store : EnvStore) (fs : FileSys) (env : ConnEnv)
    (sendOk : Bool) (promptInputs : List (List Char)) : MainOut :=
  match get_host_config args.argHost store promptInputs with
  | .exitInvalid diag => { exitCode := 1, ranCommand := none, diag := diag }
  | .eofAbort => { exitCode := 1, ranCommand := none, diag := [] }
  | .got host store1 =>
    let cert := if args.repair then none else store.shield_cert
    let r := run_pause_command host cert args.repair env sendOk store1 fs
    { exitCode := if r.success then 0 else 1, ranCommand := some r, diag := [] }

/-- The play/pause command was delivered successfully in this process run. -/
def deliveredOk (m : MainOut) : Bool :=
  match m.ranCommand with
  | some r => r.success
  | none => false

/-! ## Supporting lemmas -/

theorem digit_not_ws {c : Char} (h : isDigitCh c = true) : isWsCh c = false := by
  simp only [isDigitCh, Bool.and_eq_true, decide_eq_true_eq] at h
  simp only [isWsCh, Bool.or_eq_false_iff, decide_eq_false_iff_not]
  omega

theorem digit_ne_dot {c : Char} (h : isDigitCh c = true) : c ≠ '.' := by
  intro hc; subst hc; exact absurd h (by decide)

theorem digit_ne_nl {c : Char} (h : isDigitCh c = true) : c ≠ '\n' := by
  intro hc; subst hc; exact absurd h (by decide)

theorem dotfree_of_digits {g : List Char} (h : g.all isDigitCh = true) :
    ∀ x ∈ g, x ≠ '.' :=
  fun x hx => digit_ne_dot (List.all_eq_true.mp h x hx)

theorem dropLeadingWs_all_digits {l : List Char} (h : l.all isDigitCh = true) :
    dropLeadingWs l = l := by
  cases l with
  | nil => rfl
  | cons c t =>
    simp only [List.all_cons, Bool.and_eq_true] at h
    simp [dropLeadingWs, List.dropWhile_cons, digit_not_ws h.1]

theorem stripWs_all_digits {l : List Char} (h : l.all isDigitCh = true) :
    stripWs l = l := by
  unfold stripWs
  rw [dropLeadingWs_all_digits h,
    dropLeadingWs_all_digits (by simpa [List.all_reverse] using h), List.reverse_reverse]

theorem stripWs_digits_newline {l : List Char} (hne : l ≠ []) (h : l.all isDigitCh = true) :
    stripWs (l ++ ['\n']) = l := by
  obtain ⟨c, t, rfl⟩ := List.exists_cons_of_ne_nil hne
  simp only [List.all_cons, Bool.and_eq_true] at h
  have h1 : dropLeadingWs (c :: (t ++ ['\n'])) = c :: (t ++ ['\n']) := by
    simp [dropLeadingWs, List.dropWhile_cons, digit_not_ws h.1]
  have h2 : (c :: (t ++ ['\n'])).reverse = '\n' :: (t.reverse ++ [c]) := by simp
  have h3 : dropLeadingWs ('\n' :: (t.reverse ++ [c])) = t.reverse ++ [c] := by
    have hall : (t.reverse ++ [c]).all isDigitCh = true := by
      simp [List.all_append, List.all_reverse, h.1, h.2]
    have hdrop := dropLeadingWs_all_digits hall
    simp only [dropLeadingWs, List.dropWhile_cons] at hdrop ⊢
    rw [if_pos (by decide)]
    exact hdrop
  unfold stripWs
  simp only [List.cons_append]
  rw [h1, h2, h3]
  simp

theorem splitDotAux_cons_ne {c : Char} (hc : c ≠ '.') (t : List Char) :
    splitDotAux (c :: t) = (c :: (splitDotAux t).1, (splitDotAux t).2) := by
  simp [splitDotAux, beq_eq_false_iff_ne.mpr hc]

theorem splitDotAux_dot (rest : List Char) :
    splitDotAux ('.' :: rest) = ([], (splitDotAux rest).1 :: (splitDotAux rest).2) := by
  simp [splitDotAux]

theorem splitDotAux_dotfree {g : List Char} (h : ∀ x ∈ g, x ≠ '.') :
    splitDotAux g = (g, []) := by
  induction g with
  | nil => rfl
  | cons c t ih =>
    rw [splitDotAux_cons_ne (h c (List.mem_cons_self c t)),
      ih (fun x hx => h x (List.mem_cons_of_mem c hx))]

theorem splitDotAux_append {g : List Char} (h : ∀ x ∈ g, x ≠ '.') (rest : List Char) :
    splitDotAux (g ++ rest) = (g ++ (splitDotAux rest).1, (splitDotAux rest).2) := by
  induction g with
  | nil => simp
  | cons c t ih =>
    rw [List.cons_append, splitDotAux_cons_ne (h c (List.mem_cons_self c t)),
      ih (fun x hx => h x (List.mem_cons_of_mem c hx))]
    simp

theorem splitDotAux_four {a b c d : List Char}
    (ha : ∀ x ∈ a, x ≠ '.') (hb : ∀ x ∈ b, x ≠ '.')
    (hc : ∀ x ∈ c, x ≠ '.') (hd : ∀ x ∈ d, x ≠ '.') :
    splitDotAux (a ++ '.' :: (b ++ '.' :: (c ++ '.' :: d))) = (a, [b, c, d]) := by
  rw [splitDotAux_append ha, splitDotAux_dot, splitDotAux_append hb, splitDotAux_dot,
    splitDotAux_append hc, splitDotAux_dot, splitDotAux_dotfree hd]
  simp

theorem splitDotAux_join (l : List Char) :
    (splitDotAux l).1 ++ ((splitDotAux l).2.map (fun g => '.' :: g)).flatten = l := by
  induction l with
  | nil => rfl
  | cons c t ih =>
    by_cases hc : c = '.'
    · subst hc
      rw [splitDotAux_dot]
      simpa using ih
    · rw [splitDotAux_cons_ne hc]
      simpa using ih

theorem splitOnDot_eq_four {l a b c d : List Char} (h : splitOnDot l = [a, b, c, d]) :
    l = a ++ '.' :: (b ++ '.' :: (c ++ '.' :: d)) := by
  unfold splitOnDot at h
  injection h with h1 h2
  have hj := splitDotAux_join l
  rw [h1, h2] at hj
  simp only [List.map_cons, List.map_nil, List.flatten_cons, List.flatten_nil,
    List.append_nil, List.cons_append] at hj
  exact hj.symm

theorem octetGroupOk_facts {g : List Char} (h : octetGroupOk g = true) :
    g ≠ [] ∧ g.all isDigitCh = true := by
  simp only [octetGroupOk, Bool.and_eq_true, decide_eq_true_eq] at h
  exact ⟨List.ne_nil_of_length_pos (by omega), h.2⟩

theorem ipCoreMatch_elim {l : List Char} (h : ipCoreMatch l = true) :
    ∃ a b c d, splitOnDot l = [a, b, c, d] ∧ octetGroupOk a = true ∧
      octetGroupOk b = true ∧ octetGroupOk c = true ∧ octetGroupOk d = true := by
  unfold ipCoreMatch at h
  split at h
  next a b c d heq =>
    simp only [Bool.and_eq_true] at h
    exact ⟨a, b, c, d, heq, h.1.1.1, h.1.1.2, h.1.2, h.2⟩
  next => exact absurd h (by simp)

theorem getLast?_digit {d : List Char} (hne : d ≠ []) (h : d.all isDigitCh = true) :
    ∃ x, d.getLast? = some x ∧ isDigitCh x = true := by
  cases hrev : d.reverse with
  | nil => exact absurd (List.reverse_eq_nil_iff.mp hrev) hne
  | cons x t =>
    refine ⟨x, ?_, ?_⟩
    · rw [← List.head?_reverse, hrev]; rfl
    · have hx : x ∈ d := by
        rw [← List.mem_reverse, hrev]; exact List.mem_cons_self x t
      exact List.all_eq_true.mp h x hx

theorem lastIsNewline_of_core {l a b c d : List Char} (hs : splitOnDot l = [a, b, c, d])
    (hd : octetGroupOk d = true) : lastIsNewline l = false := by
  obtain ⟨hdne, hddig⟩ := octetGroupOk_facts hd
  obtain ⟨x, hx, hxdig⟩ := getLast?_digit hdne hddig
  have hl := splitOnDot_eq_four hs
  have hform : l = (a ++ '.' :: (b ++ '.' :: (c ++ ['.']))) ++ d := by
    rw [hl]; simp [List.append_assoc]
  have hgl : l.getLast? = some x := by
    rw [hform, List.getLast?_append, hx]; rfl
  have hxn : x ≠ '\n' := digit_ne_nl hxdig
  simp [lastIsNewline, hgl, hxn]

theorem values_eq_amendedCore {l a b c d : List Char} (hs : splitOnDot l = [a, b, c, d])
    (ha : octetGroupOk a = true) (hb : octetGroupOk b = true)
    (hc : octetGroupOk c = true) (hd : octetGroupOk d = true) :
    (splitOnDot l).all (fun octet => pyIntVal octet ≤ 255) = amendedIpCore l := by
  obtain ⟨-, hadig⟩ := octetGroupOk_facts ha
  obtain ⟨-, hbdig⟩ := octetGroupOk_facts hb
  obtain ⟨-, hcdig⟩ := octetGroupOk_facts hc
  obtain ⟨-, hddig⟩ := octetGroupOk_facts hd
  unfold amendedIpCore
  rw [hs]
  simp [octetValueOk, ha, hb, hc, hd, pyIntVal, stripWs_all_digits hadig,
    stripWs_all_digits hbdig, stripWs_all_digits hcdig, stripWs_all_digits hddig,
    Bool.and_assoc]

theorem amendedIpCore_imp {l : List Char} (h : amendedIpCore l = true) :
    ipCoreMatch l = true := by
  unfold amendedIpCore at h
  unfold ipCoreMatch
  split at h
  next a b c d heq =>
    simp only [octetValueOk, Bool.and_eq_true, decide_eq_true_eq] at h
    simp [h.1.1.1.1, h.1.1.2.1, h.1.2.1, h.2.1]
  next => exact absurd h (by simp)

theorem validateIpChars_eq_amended (l : List Char) : validateIpChars l = amendedIpValid l := by
  unfold validateIpChars amendedIpValid ipRegexMatch
  cases hA : ipCoreMatch l with
  | true =>
    obtain ⟨a, b, c, d, hs, ha, hb, hc, hd⟩ := ipCoreMatch_elim hA
    have hNl := lastIsNewline_of_core hs hd
    have hv := values_eq_amendedCore hs ha hb hc hd
    simp [hNl, hv]
  | false =>
    have hCl : amendedIpCore l = false := by
      cases hx : amendedIpCore l with
      | false => rfl
      | true => exact absurd (amendedIpCore_imp hx) (by simp [hA])
    cases hNl : lastIsNewline l with
    | false => simp [hNl, hCl]
    | true =>
      cases hB : ipCoreMatch l.dropLast with
      | false =>
        have hCd : amendedIpCore l.dropLast = false := by
          cases hx : amendedIpCore l.dropLast with
          | false => rfl
          | true => exact absurd (amendedIpCore_imp hx) (by simp [hB])
        simp [hNl, hCl, hCd]
      | true =>
        obtain ⟨a, b, c, d, hs, ha, hb, hc, hd⟩ := ipCoreMatch_elim hB
        have hlne : l ≠ [] := by
          intro h0; subst h0; simp [lastIsNewline] at hNl
        have hlast : l.getLast? = some '\n' := by
          have := hNl; simpa [lastIsNewline] using this
        have hdecomp : l = l.dropLast ++ ['\n'] := by
          have h2 : l.getLast hlne = '\n' := by
            have h3 := List.getLast?_eq_getLast l hlne
            rw [hlast] at h3
            exact (Option.some.inj h3).symm
          conv_lhs => rw [← List.dropLast_append_getLast hlne]
          rw [h2]
        have htform := splitOnDot_eq_four hs
        obtain ⟨hane, hadig⟩ := octetGroupOk_facts ha
        obtain ⟨hbne, hbdig⟩ := octetGroupOk_facts hb
        obtain ⟨hcne, hcdig⟩ := octetGroupOk_facts hc
        obtain ⟨hdne, hddig⟩ := octetGroupOk_facts hd
        have hlform : l = a ++ '.' :: (b ++ '.' :: (c ++ '.' :: (d ++ ['\n']))) := by
          conv_lhs => rw [hdecomp, htform]
          simp [List.append_assoc]
        have hdnl : ∀ x ∈ d ++ ['\n'], x ≠ '.' := by
          intro x hx
          rcases List.mem_append.mp hx with hx | hx
          · exact dotfree_of_digits hddig x hx
          · simp only [List.mem_singleton] at hx; subst hx; decide
        have hsl : splitOnDot l = [a, b, c, d ++ ['\n']] := by
          conv_lhs => rw [hlform]
          unfold splitOnDot
          rw [splitDotAux_four (dotfree_of_digits hadig) (dotfree_of_digits hbdig)
            (dotfree_of_digits hcdig) hdnl]
        have hvals : (splitOnDot l).all (fun octet => pyIntVal octet ≤ 255) =
            amendedIpCore l.dropLast := by
          rw [hsl]
          unfold amendedIpCore
          rw [hs]
          simp [octetValueOk, ha, hb, hc, hd, pyIntVal, stripWs_all_digits hadig,
            stripWs_all_digits hbdig, stripWs_all_digits hcdig,
            stripWs_digits_newline hdne hddig, Bool.and_assoc]
        simp [hNl, hCl, hvals]

theorem utf8EncodeCharM_ne_nil (c : Char) : utf8EncodeCharM c ≠ [] := by
  simp only [utf8EncodeCharM]
  split
  · simp
  · split
    · simp
    · split <;> simp

theorem b64EncodeBytes_ne_nil {bs : List Nat} (h : bs ≠ []) : b64EncodeBytes bs ≠ [] := by
  match bs with
  | [] => exact absurd rfl h
  | [a] => simp [b64EncodeBytes]
  | [a, b] => simp [b64EncodeBytes]
  | a :: b :: c :: rest => simp [b64EncodeBytes]

theorem utf8Bytes_cons_ne_nil (c : Char) (t : List Char) : utf8Bytes (c :: t) ≠ [] := by
  unfold utf8Bytes
  simp only [List.map_cons, List.flatten_cons]
  intro h
  rcases List.append_eq_nil.mp h with ⟨h1, -⟩
  exact utf8EncodeCharM_ne_nil c h1

theorem markerFor_ne_nil (host : List Char) : markerFor host ≠ [] := by
  have hform : "paired_".toList ++ host = 'p' :: ("aired_".toList ++ host) := rfl
  unfold markerFor
  rw [hform]
  exact b64EncodeBytes_ne_nil (utf8Bytes_cons_ne_nil _ _)

theorem pairLoop_result (host : List Char) (finish : Nat → FinishOutcome)
    (inputs : List (List Char)) : ∀ k : Nat,
      (pairLoop host finish inputs k).1 = none ∨
        (pairLoop host finish inputs k).1 = some (markerFor host) := by
  induction inputs with
  | nil => intro k; exact Or.inl rfl
  | cons raw rest ih =>
    intro k
    simp only [pairLoop]
    cases hrej : pinRejected (normalizePinInput raw) with
    | true => simpa using ih k
    | false =>
      simp only [Bool.false_eq_true, if_false]
      cases hf : finish k with
      | success => simp
      | failure msg =>
        cases hcl : classify_pairing_error msg with
        | invalidPin =>
          have hrec := ih (k + 1)
          rcases hp : pairLoop host finish rest (k + 1) with ⟨r, subs⟩
          rw [hp] at hrec
          simpa [hcl, hp] using hrec
        | rejectedOnDevice => simp [hcl]
        | otherError => simp [hcl]

theorem pair_with_shield_result (host : List Char) (s : Bool) (f : Nat → FinishOutcome)
    (inputs : List (List Char)) :
    (pair_with_shield host s f inputs).1 = none ∨
      (pair_with_shield host s f inputs).1 = some (markerFor host) := by
  unfold pair_with_shield
  cases s with
  | false => simp
  | true => simpa using pairLoop_result host f inputs 0

theorem connect_pairingEntered (host : List Char) (cert_data : Option (List Char))
    (force_repair : Bool) (env : ConnEnv) (store : EnvStore) (fs : FileSys) :
    (connect_and_pair_if_needed host cert_data force_repair env store fs).pairingEntered
      = (force_repair || pyFalsy cert_data) := by
  simp only [connect_and_pair_if_needed]
  split
  next h =>
    split
    next => split <;> simp [h]
    next => simp [h]
  next h =>
    simp only [Bool.not_eq_true] at h
    simp [h]

theorem connect_fs_eq (host : List Char) (cert_data : Option (List Char))
    (force_repair : Bool) (env : ConnEnv) (store : EnvStore) (fs : FileSys) :
    (connect_and_pair_if_needed host cert_data force_repair env store fs).fs
      = generate_cert_if_missing env.freshIdentity fs := by
  simp only [connect_and_pair_if_needed]
  split
  next =>
    split
    next => split <;> rfl
    next => rfl
  next => rfl

theorem connect_noPairing (host : List Char) (cert_data : Option (List Char))
    (force_repair : Bool) (env : ConnEnv) (store : EnvStore) (fs : FileSys)
    (h : (force_repair || pyFalsy cert_data) = false) :
    connect_and_pair_if_needed host cert_data force_repair env store fs =
      { remote := if env.connectOk then some () else none
        store := store
        fs := generate_cert_if_missing env.freshIdentity fs
        pairingEntered := false
        submittedPins := []
        connectAttempted := true } := by
  simp [connect_and_pair_if_needed, h]

theorem connect_pairFail (host : List Char) (cert_data : Option (List Char))
    (force_repair : Bool) (env : ConnEnv) (store : EnvStore) (fs : FileSys)
    (h1 : (force_repair || pyFalsy cert_data) = true)
    (h2 : (pair_with_shield host env.startPairingOk env.finish env.pinInputs).1 = none) :
    connect_and_pair_if_needed host cert_data force_repair env store fs =
      { remote := none
        store := store
        fs := generate_cert_if_missing env.freshIdentity fs
        pairingEntered := true
        submittedPins :=
          (pair_with_shield host env.startPairingOk env.finish env.pinInputs).2
        connectAttempted := false } := by
  rcases hp : pair_with_shield host env.startPairingOk env.finish env.pinInputs with ⟨r, subs⟩
  have hr : r = none := by rw [hp] at h2; exact h2
  subst hr
  simp [connect_and_pair_if_needed, h1, hp]

theorem connect_pairSuccess (host : List Char) (cert_data : Option (List Char))
    (force_repair : Bool) (env : ConnEnv) (store : EnvStore) (fs : FileSys) (m : List Char)
    (h1 : (force_repair || pyFalsy cert_data) = true)
    (h2 : (pair_with_shield host env.startPairingOk env.finish env.pinInputs).1 = some m) :
    connect_and_pair_if_needed host cert_data force_repair env store fs =
      { remote := if env.connectOk then some () else none
        store := setCert store m
        fs := generate_cert_if_missing env.freshIdentity fs
        pairingEntered := true
        submittedPins :=
          (pair_with_shield host env.startPairingOk env.finish env.pinInputs).2
        connectAttempted := true } := by
  have hm : m ≠ [] := by
    rcases pair_with_shield_result host env.startPairingOk env.finish env.pinInputs with h | h
    · rw [h2] at h; cases h
    · rw [h2] at h
      have := Option.some.inj h
      subst this
      exact markerFor_ne_nil host
  have hme : m.isEmpty = false := List.isEmpty_eq_false.mpr hm
  rcases hp : pair_with_shield host env.startPairingOk env.finish env.pinInputs with ⟨r, subs⟩
  have hr : r = some m := by rw [hp] at h2; exact h2
  subst hr
  simp [connect_and_pair_if_needed, h1, hp, hme]

/-! ## Claim theorems -/

/-- C1: the orchestrator enters the pairing branch exactly when `force_repair`
is true or the stored credential marker is null — the source tests Python
falsiness (`not cert_data`), which coincides with nullness on every store the
program can produce, since a stored marker is never empty (second conjunct).
With `force_repair` false and a non-null, non-empty marker (and whatever the
identity-file state, in particular both files present), pairing is skipped
and connection is attempted directly (third conjunct). -/
theorem pairing_branch_condition (host : List Char) (cert_data : Option (List Char))
    (force_repair : Bool) (env : ConnEnv) (store : EnvStore) (fs : FileSys) :
    ((connect_and_pair_if_needed host cert_data force_repair env store fs).pairingEntered
        = (force_repair || pyFalsy cert_data)) ∧
      markerFor host ≠ [] ∧
      (force_repair = false → ∀ m, cert_data = some m → m ≠ [] →
        bothIdentityFilesPresent fs = true →
        (connect_and_pair_if_needed host cert_data force_repair env store fs).pairingEntered
            = false ∧
          (connect_and_pair_if_needed host cert_data force_repair
              env store fs).connectAttempted = true) := by
  refine ⟨connect_pairingEntered host cert_data force_repair env store fs,
    markerFor_ne_nil host, ?_⟩
  intro hforce m hm hmne _
  have hneeds : (force_repair || pyFalsy cert_data) = false := by
    rw [hm, hforce]
    simpa [pyFalsy] using List.isEmpty_eq_false.mpr hmne
  rw [connect_noPairing host cert_data force_repair env store fs hneeds]
  exact ⟨rfl, rfl⟩

/-- Witness for C1: concrete run with a stored non-empty marker, no forced
re-pair, both identity files present — pairing is skipped, connect attempted. -/
theorem pairing_branch_condition_witness :
    (false : Bool) = false ∧ (['X'] : List Char) ≠ [] ∧
      bothIdentityFilesPresent ⟨some [0], some [1]⟩ = true ∧
      ((connect_and_pair_if_needed "10.0.0.5".toList (some ['X']) false
          ⟨true, fun _ => FinishOutcome.success, [], ([0], [1]), true⟩
          ⟨none, some ['X']⟩ ⟨some [0], some [1]⟩).pairingEntered = false ∧
        (connect_and_pair_if_needed "10.0.0.5".toList (some ['X']) false
          ⟨true, fun _ => FinishOutcome.success, [], ([0], [1]), true⟩
          ⟨none, some ['X']⟩ ⟨some [0], some [1]⟩).connectAttempted = true) :=
  ⟨rfl, by decide, by decide,
    (pairing_branch_condition _ _ _ _ _ _).2.2 rfl ['X'] rfl (by decide) (by decide)⟩

/-- C2 counterexample: a run with a non-null stored marker and the key
identity file missing does not redo pairing — the pairing branch is skipped
and connection is attempted directly, contradicting the claim. -/
theorem stale_marker_counterexample :
    (some (['m'] : List Char)) ≠ none ∧
      (FileSys.mk (some [0]) none).keyFile = none ∧
      (connect_and_pair_if_needed "10.0.0.5".toList (some ['m']) false
        ⟨true, fun _ => FinishOutcome.success, [], ([7], [8]), true⟩
        ⟨none, some ['m']⟩ ⟨some [0], none⟩).pairingEntered = false ∧
      (connect_and_pair_if_needed "10.0.0.5".toList (some ['m']) false
        ⟨true, fun _ => FinishOutcome.success, [], ([7], [8]), true⟩
        ⟨none, some ['m']⟩ ⟨some [0], none⟩).connectAttempted = true := by
  decide

/-- C2 (amended): the orchestrator does not validate the stored marker against
the on-disk identity files.  For every run with `force_repair` false and a
non-null, non-empty marker, the pairing branch is skipped and connection is
attempted directly regardless of identity-file presence; the ensure-identity
step merely regenerates a fresh (unpaired) identity when a file is missing. -/
theorem stale_marker_skips_pairing (host m : List Char) (force_repair : Bool)
    (env : ConnEnv) (store : EnvStore) (fs : FileSys)
    (hforce : force_repair = false) (hm : m ≠ []) :
    (connect_and_pair_if_needed host (some m) force_repair env store fs).pairingEntered
        = false ∧
      (connect_and_pair_if_needed host (some m) force_repair env store fs).connectAttempted
        = true ∧
      (connect_and_pair_if_needed host (some m) force_repair env store fs).fs
        = generate_cert_if_missing env.freshIdentity fs := by
  have hneeds : (force_repair || pyFalsy (some m)) = false := by
    rw [hforce]
    simpa [pyFalsy] using List.isEmpty_eq_false.mpr hm
  rw [connect_noPairing host (some m) force_repair env store fs hneeds]
  exact ⟨rfl, rfl, rfl⟩

/-- Witness for the amended C2 at a concrete run with both identity files
missing. -/
theorem stale_marker_skips_pairing_witness :
    (false : Bool) = false ∧ (['m'] : List Char) ≠ [] ∧
      ((connect_and_pair_if_needed "10.0.0.5".toList (some ['m']) false
          ⟨true, fun _ => FinishOutcome.success, [], ([7], [8]), true⟩
          ⟨none, some ['m']⟩ ⟨none, none⟩).pairingEntered = false ∧
        (connect_and_pair_if_needed "10.0.0.5".toList (some ['m']) false
          ⟨true, fun _ => FinishOutcome.success, [], ([7], [8]), true⟩
          ⟨none, some ['m']⟩ ⟨none, none⟩).connectAttempted = true ∧
        (connect_and_pair_if_needed "10.0.0.5".toList (some ['m']) false
          ⟨true, fun _ => FinishOutcome.success, [], ([7], [8]), true⟩
          ⟨none, some ['m']⟩ ⟨none, none⟩).fs
          = generate_cert_if_missing ([7], [8]) ⟨none, none⟩) :=
  ⟨rfl, by decide, stale_marker_skips_pairing _ _ _ _ _ _ rfl (by decide)⟩

/-- C3: when the pairing negotiator returns failure, no connection attempt is
made afterward in that run, no channel is obtained, and the run terminates
with failure status (exit code 1 from `main_async`). -/
theorem pairing_failure_isolated (host : List Char) (cert_data : Option (List Char))
    (force_repair : Bool) (env : ConnEnv) (sendOk : Bool) (store : EnvStore) (fs : FileSys)
    (hneeds : (force_repair || pyFalsy cert_data) = true)
    (hfail : (pair_with_shield host env.startPairingOk env.finish env.pinInputs).1 = none) :
    (run_pause_command host cert_data force_repair env sendOk store fs).orch.connectAttempted
        = false ∧
      (run_pause_command host cert_data force_repair env sendOk store fs).orch.remote = none ∧
      (run_pause_command host cert_data force_repair env sendOk store fs).success = false ∧
      main_async_code host cert_data force_repair env sendOk store fs = 1 := by
  have hc := connect_pairFail host cert_data force_repair env store fs hneeds hfail
  unfold main_async_code run_pause_command
  rw [hc]
  exact ⟨rfl, rfl, rfl, rfl⟩

/-- Witness for C3: a `--repair` run in which the pairing handshake cannot be
initiated fails with exit code 1 and never attempts a connection. -/
theorem pairing_failure_isolated_witness :
    ((true : Bool) || pyFalsy (some ['O'])) = true ∧
      (pair_with_shield "10.0.0.5".toList false (fun _ => FinishOutcome.success) []).1
          = none ∧
      ((run_pause_command "10.0.0.5".toList (some ['O']) true
          ⟨false, fun _ => FinishOutcome.success, [], ([0], [1]), true⟩ true
          ⟨none, some ['O']⟩ ⟨none, none⟩).orch.connectAttempted = false ∧
        (run_pause_command "10.0.0.5".toList (some ['O']) true
          ⟨false, fun _ => FinishOutcome.success, [], ([0], [1]), true⟩ true
          ⟨none, some ['O']⟩ ⟨none, none⟩).orch.remote = none ∧
        (run_pause_command "10.0.0.5".toList (some ['O']) true
          ⟨false, fun _ => FinishOutcome.success, [], ([0], [1]), true⟩ true
          ⟨none, some ['O']⟩ ⟨none, none⟩).success = false ∧
        main_async_code "10.0.0.5".toList (some ['O']) true
          ⟨false, fun _ => FinishOutcome.success, [], ([0], [1]), true⟩ true
          ⟨none, some ['O']⟩ ⟨none, none⟩ = 1) :=
  ⟨by decide, by decide,
    pairing_failure_isolated _ _ _ _ _ _ _ (by decide) (by decide)⟩

/-- C4: when a PIN submission fails, the handler classifies the raised error
into exactly one of three outcomes (first conjunct): an error text containing
"invalid" or "wrong" (lowercased) re-prompts, consuming one attempt and
continuing the loop with no upper bound — the continuation shape holds for
every attempt index `k` (second conjunct); an error text containing "reject"
but neither of the former aborts at once with failure and no further
submission (third conjunct); any other error text likewise aborts at once
(fourth conjunct). -/
theorem pin_failure_classification (host : List Char) (finish : Nat → FinishOutcome)
    (raw : List Char) (rest : List (List Char)) (k : Nat) (msg : List Char)
    (hvalid : pinRejected (normalizePinInput raw) = false)
    (hfail : finish k = FinishOutcome.failure msg) :
    (classify_pairing_error msg = PairErrClass.invalidPin ∨
        classify_pairing_error msg = PairErrClass.rejectedOnDevice ∨
        classify_pairing_error msg = PairErrClass.otherError) ∧
      ((containsSub "invalid".toList (msg.map pyLowerCh) = true ∨
          containsSub "wrong".toList (msg.map pyLowerCh) = true) →
        pairLoop host finish (raw :: rest) k =
          ((pairLoop host finish rest (k + 1)).1,
            normalizePinInput raw :: (pairLoop host finish rest (k + 1)).2)) ∧
      (containsSub "invalid".toList (msg.map pyLowerCh) = false →
        containsSub "wrong".toList (msg.map pyLowerCh) = false →
        containsSub "reject".toList (msg.map pyLowerCh) = true →
        pairLoop host finish (raw :: rest) k = (none, [normalizePinInput raw])) ∧
      (containsSub "invalid".toList (msg.map pyLowerCh) = false →
        containsSub "wrong".toList (msg.map pyLowerCh) = false →
        containsSub "reject".toList (msg.map pyLowerCh) = false →
        pairLoop host finish (raw :: rest) k = (none, [normalizePinInput raw])) := by
  refine ⟨?_, ?_, ?_, ?_⟩
  · cases classify_pairing_error msg with
    | invalidPin => exact Or.inl rfl
    | rejectedOnDevice => exact Or.inr (Or.inl rfl)
    | otherError => exact Or.inr (Or.inr rfl)
  · intro hin
    have hcl : classify_pairing_error msg = PairErrClass.invalidPin := by
      rcases hin with h | h <;>
        (simp at h; simp [classify_pairing_error, h])
    rcases hp : pairLoop host finish rest (k + 1) with ⟨r, subs⟩
    simp [pairLoop, hvalid, hfail, hcl, hp]
  · intro h1 h2 h3
    have hcl : classify_pairing_error msg = PairErrClass.rejectedOnDevice := by
      simp at h1 h2 h3
      simp [classify_pairing_error, h1, h2, h3]
    simp [pairLoop, hvalid, hfail, hcl]
  · intro h1 h2 h3
    have hcl : classify_pairing_error msg = PairErrClass.otherError := by
      simp at h1 h2 h3
      simp [classify_pairing_error, h1, h2, h3]
    simp [pairLoop, hvalid, hfail, hcl]

/-- Witness for C4: a device-side rejection message aborts the loop at once
with failure after a single submission. -/
theorem pin_failure_classification_witness :
    pinRejected (normalizePinInput "4d292b".toList) = false ∧
      containsSub "reject".toList ("Pairing rejected by user".toList.map pyLowerCh)
          = true ∧
      pairLoop "10.0.0.5".toList
          (fun _ => FinishOutcome.failure "Pairing rejected by user".toList)
          ["4d292b".toList] 0
        = (none, [normalizePinInput "4d292b".toList]) :=
  ⟨by decide, by decide,
    (pin_failure_classification "10.0.0.5".toList
        (fun _ => FinishOutcome.failure "Pairing rejected by user".toList)
        "4d292b".toList [] 0 "Pairing rejected by user".toList
        (by decide) rfl).2.2.1 (by decide) (by decide) (by decide)⟩

/-- C5: the exit code is 0 iff the play/pause command was delivered
successfully (first conjunct); the exit code is always 0 or 1 (second); and a
non-empty invalid `--host` value makes the process exit with code 1, the
diagnostic printed, and the command never run — hence no pairing, connection
or send (third).  The source guards on Python truthiness (`if args.host:`),
so an empty `--host` string falls back to the stored configuration rather
than being treated as a supplied value. -/
theorem exit_code_iff_delivery :
    (∀ (args : Args) (store : EnvStore) (fs : FileSys) (env : ConnEnv) (sendOk : Bool)
        (promptInputs : List (List Char)),
        ((mainModel args store fs env sendOk promptInputs).exitCode = 0 ↔
          deliveredOk (mainModel args store fs env sendOk promptInputs) = true)) ∧
      (∀ (args : Args) (store : EnvStore) (fs : FileSys) (env : ConnEnv) (sendOk : Bool)
          (promptInputs : List (List Char)),
        (mainModel args store fs env sendOk promptInputs).exitCode = 0 ∨
          (mainModel args store fs env sendOk promptInputs).exitCode = 1) ∧
      (∀ (h : List Char) (rep : Bool) (store : EnvStore) (fs : FileSys) (env : ConnEnv)
          (sendOk : Bool) (promptInputs : List (List Char)),
        h ≠ [] → validateIpChars h = false →
        mainModel ⟨some h, rep⟩ store fs env sendOk promptInputs =
          { exitCode := 1, ranCommand := none, diag := invalidHostDiag h }) := by
  refine ⟨?_, ?_, ?_⟩
  · intro args store fs env sendOk promptInputs
    unfold mainModel deliveredOk
    cases hg : get_host_config args.argHost store promptInputs with
    | exitInvalid diag => simp
    | eofAbort => simp
    | got hst store1 =>
      cases hs : (run_pause_command hst (if args.repair then none else store.shield_cert)
          args.repair env sendOk store1 fs).success <;> simp [hs]
  · intro args store fs env sendOk promptInputs
    unfold mainModel
    cases hg : get_host_config args.argHost store promptInputs with
    | exitInvalid diag => simp
    | eofAbort => simp
    | got hst store1 =>
      cases hs : (run_pause_command hst (if args.repair then none else store.shield_cert)
          args.repair env sendOk store1 fs).success <;> simp [hs]
  · intro h rep store fs env sendOk promptInputs hne hval
    have hE : h.isEmpty = false := List.isEmpty_eq_false.mpr hne
    simp [mainModel, get_host_config, hE, hval]

/-- Witness for C5: a concrete invalid `--host` value exits with code 1, the
diagnostic, and no command run. -/
theorem exit_code_iff_delivery_witness :
    ("999.1.1.1".toList ≠ ([] : List Char)) ∧
      validateIpChars "999.1.1.1".toList = false ∧
      mainModel ⟨some "999.1.1.1".toList, false⟩ ⟨none, none⟩ ⟨none, none⟩
          ⟨true, fun _ => FinishOutcome.success, [], ([0], [1]), true⟩ true []
        = { exitCode := 1, ranCommand := none, diag := invalidHostDiag "999.1.1.1".toList } :=
  ⟨by decide, by decide,
    exit_code_iff_delivery.2.2 _ _ _ _ _ _ _ (by decide) (by decide)⟩

/-- C6: once the session channel has been successfully opened (a remote is
returned by the orchestrator), the dispatcher is invoked and the channel is
then released unconditionally — `sendOk`, the dispatch outcome, is arbitrary
(first conjunct); when no channel was opened, no release is attempted
(second conjunct). -/
theorem channel_released_after_dispatch (host : List Char) (cert_data : Option (List Char))
    (force_repair : Bool) (env : ConnEnv) (sendOk : Bool) (store : EnvStore) (fs : FileSys) :
    ((run_pause_command host cert_data force_repair env sendOk store fs).orch.remote.isSome
          = true →
        (run_pause_command host cert_data force_repair env sendOk store fs).sendAttempted
            = true ∧
          (run_pause_command host cert_data force_repair env sendOk store fs).disconnected
            = true) ∧
      ((run_pause_command host cert_data force_repair env sendOk store fs).orch.remote
          = none →
        (run_pause_command host cert_data force_repair env sendOk store fs).disconnected
            = false ∧
          (run_pause_command host cert_data force_repair env sendOk store fs).sendAttempted
            = false) := by
  unfold run_pause_command
  cases hq : (connect_and_pair_if_needed host cert_data force_repair env store fs).remote with
  | none => simp [hq]
  | some u => simp [hq]

/-- Witness for C6: a run whose dispatch fails (`sendOk = false`) still
releases the channel after handing it to the dispatcher. -/
theorem channel_released_after_dispatch_witness :
    (run_pause_command "10.0.0.5".toList (some ['X']) false
        ⟨true, fun _ => FinishOutcome.success, [], ([0], [1]), true⟩ false
        ⟨none, some ['X']⟩ ⟨some [0], some [1]⟩).orch.remote.isSome = true ∧
      ((run_pause_command "10.0.0.5".toList (some ['X']) false
          ⟨true, fun _ => FinishOutcome.success, [], ([0], [1]), true⟩ false
          ⟨none, some ['X']⟩ ⟨some [0], some [1]⟩).sendAttempted = true ∧
        (run_pause_command "10.0.0.5".toList (some ['X']) false
          ⟨true, fun _ => FinishOutcome.success, [], ([0], [1]), true⟩ false
          ⟨none, some ['X']⟩ ⟨some [0], some [1]⟩).disconnected = true) :=
  ⟨by decide, (channel_released_after_dispatch _ _ _ _ _ _ _).1 (by decide)⟩

/-- C7: the PIN validator accepts, after the strip-and-uppercase normalization
the loop applies to raw input, exactly the strings of 6 characters over
0-9A-F (first conjunct); a rejected input re-prompts and leaves the loop
state completely unchanged — same attempt counter, same submissions, no PIN
submitted for it (second conjunct). -/
theorem pin_validator_characterization :
    (∀ raw : List Char,
        pinRejected (normalizePinInput raw) = false ↔
          ((normalizePinInput raw).length = 6 ∧
            ∀ c ∈ normalizePinInput raw, c ∈ hexDigits)) ∧
      (∀ (host : List Char) (finish : Nat → FinishOutcome) (raw : List Char)
          (rest : List (List Char)) (k : Nat),
        pinRejected (normalizePinInput raw) = true →
          pairLoop host finish (raw :: rest) k = pairLoop host finish rest k) := by
  constructor
  · intro raw
    simp [pinRejected, List.all_eq_true, List.elem_iff]
  · intro host finish raw rest k hrej
    simp [pairLoop, hrej]

/-- Witness for C7: a malformed PIN entry (wrong length) is dropped from the
loop without a submission; a strip-and-uppercase-normalized valid entry is
accepted. -/
theorem pin_validator_characterization_witness :
    pinRejected (normalizePinInput " 4d292b ".toList) = false ∧
      pinRejected (normalizePinInput "12345".toList) = true ∧
      pairLoop "10.0.0.5".toList (fun _ => FinishOutcome.success)
          ["12345".toList, "4D292B".toList] 0
        = pairLoop "10.0.0.5".toList (fun _ => FinishOutcome.success) ["4D292B".toList] 0 :=
  ⟨by decide, by decide,
    pin_validator_characterization.2 "10.0.0.5".toList (fun _ => FinishOutcome.success)
      "12345".toList ["4D292B".toList] 0 (by decide)⟩

/-- C9: the ensure-identity step is idempotent: with both identity files
present it is a no-op (first conjunct); invoked twice in succession, the
second invocation changes nothing, leaving the files byte-identical (second
conjunct); and the orchestrator applies exactly this step to the file system
(third conjunct). -/
theorem identity_generation_idempotent (fresh1 fresh2 : List Nat × List Nat) (fs : FileSys) :
    (bothIdentityFilesPresent fs = true → generate_cert_if_missing fresh1 fs = fs) ∧
      generate_cert_if_missing fresh2 (generate_cert_if_missing fresh1 fs)
          = generate_cert_if_missing fresh1 fs ∧
      (∀ (host : List Char) (cert_data : Option (List Char)) (force_repair : Bool)
          (env : ConnEnv) (store : EnvStore),
        (connect_and_pair_if_needed host cert_data force_repair
            { env with freshIdentity := fresh1 } store fs).fs
          = generate_cert_if_missing fresh1 fs) := by
  refine ⟨?_, ?_, ?_⟩
  · intro h; simp [generate_cert_if_missing, h]
  · by_cases h : bothIdentityFilesPresent fs = true
    · simp [generate_cert_if_missing, h]
    · have h2 : bothIdentityFilesPresent fs = false := by simpa using h
      have hinner : generate_cert_if_missing fresh1 fs =
          { certFile := some fresh1.1, keyFile := some fresh1.2 } := by
        simp [generate_cert_if_missing, h2]
      rw [hinner]
      simp [generate_cert_if_missing, bothIdentityFilesPresent]
  · intro host cert_data force_repair env store
    simpa using
      connect_fs_eq host cert_data force_repair { env with freshIdentity := fresh1 } store fs

/-- Witness for C9: with both identity files present the step is a no-op even
though fresh identity bytes are available. -/
theorem identity_generation_idempotent_witness :
    bothIdentityFilesPresent ⟨some [1], some [2]⟩ = true ∧
      generate_cert_if_missing ([9], [9]) ⟨some [1], some [2]⟩ = ⟨some [1], some [2]⟩ :=
  ⟨by decide,
    (identity_generation_idempotent ([9], [9]) ([8], [8]) ⟨some [1], some [2]⟩).1 (by decide)⟩

/-- C10: the credential marker is written only on successful pairing: if the
negotiator fails, the store is left unchanged — in particular a previously
stored marker survives a failed re-pair, including a failed `--repair` run —
(first conjunct), and any store change is exactly a successful-pairing save of
the returned marker (second conjunct). -/
theorem marker_survives_failed_pairing (host : List Char) (cert_data : Option (List Char))
    (force_repair : Bool) (env : ConnEnv) (store : EnvStore) (fs : FileSys) :
    ((pair_with_shield host env.startPairingOk env.finish env.pinInputs).1 = none →
        (connect_and_pair_if_needed host cert_data force_repair env store fs).store
          = store) ∧
      ((connect_and_pair_if_needed host cert_data force_repair env store fs).store ≠ store →
        (force_repair || pyFalsy cert_data) = true ∧
          ∃ m, (pair_with_shield host env.startPairingOk env.finish env.pinInputs).1
                = some m ∧
            (connect_and_pair_if_needed host cert_data force_repair env store fs).store
              = setCert store m) := by
  by_cases hneeds : (force_repair || pyFalsy cert_data) = true
  · rcases pair_with_shield_result host env.startPairingOk env.finish env.pinInputs with hp | hp
    · rw [connect_pairFail host cert_data force_repair env store fs hneeds hp]
      exact ⟨fun _ => rfl, fun hne => absurd rfl hne⟩
    · rw [connect_pairSuccess host cert_data force_repair env store fs _ hneeds hp]
      constructor
      · intro h0; rw [h0] at hp; cases hp
      · intro _; exact ⟨hneeds, markerFor host, hp, rfl⟩
  · have hn : (force_repair || pyFalsy cert_data) = false := by
      simpa using hneeds
    rw [connect_noPairing host cert_data force_repair env store fs hn]
    exact ⟨fun _ => rfl, fun hne => absurd rfl hne⟩

/-- Witness for C10: a failed `--repair` run leaves the previously stored
marker untouched. -/
theorem marker_survives_failed_pairing_witness :
    (pair_with_shield "10.0.0.5".toList false (fun _ => FinishOutcome.success) []).1
        = none ∧
      (connect_and_pair_if_needed "10.0.0.5".toList none true
          ⟨false, fun _ => FinishOutcome.success, [], ([0], [1]), true⟩
          ⟨some "10.0.0.5".toList, some ['O', 'L', 'D']⟩ ⟨none, none⟩).store
        = ⟨some "10.0.0.5".toList, some ['O', 'L', 'D']⟩ :=
  ⟨by decide, (marker_survives_failed_pairing _ _ _ _ _ _).1 (by decide)⟩

/-- C8 counterexample: `validate_ip` accepts the nine-character string of the
four octets 1.2.3.4 followed by a newline, which does not consist of four
dot-separated decimal groups (the regex anchor matches just before one
trailing newline and `int` strips surrounding whitespace), and rejects the
string 0000.0.0.1 although its four decimal groups all parse to integers in
[0,255] (the regex admits at most three digits per group). -/
theorem ip_validator_counterexample :
    validate_ip "1.2.3.4\n" = true ∧ claimedIpValid "1.2.3.4\n".toList = false ∧
      validate_ip "0000.0.0.1" = false ∧ claimedIpValid "0000.0.0.1".toList = true := by
  decide

/-- C8 (amended): for every input string, `validate_ip` returns true if and
only if the input — tolerating at most one trailing newline, which the regex
anchor admits — consists of exactly four dot-separated groups of one to three
ASCII digits whose decimal values are at most 255. -/
theorem ip_validator_amended (s : String) :
    validate_ip s = amendedIpValid s.toList :=
  validateIpChars_eq_amended s.toList


end ShieldPause
